import Mathlib

/-!
Verification of the Cerebro research-orchestrator backend (src/main.py)
against its natural-language specification.

The Python source is shallowly embedded: external collaborators (the LLM
client, the Airtable store) are modelled as explicit oracle functions, the
process-local session cache as an association list, and side effects
(provider-issue bookkeeping, sleeps) as explicit traces returned alongside
the handler result.  All definitions are executable.
-/

namespace Cerebro

/-! ## Python string primitives (ASCII fragment used by the source) -/

/-- ASCII lowering of one character, as `str.lower` acts on ASCII. -/
def lowerChar (c : Char) : Char :=
  if 65 ≤ c.toNat ∧ c.toNat ≤ 90 then Char.ofNat (c.toNat + 32) else c

/-- Lowercase a character list (`str.lower` on ASCII text). -/
def lowerL (l : List Char) : List Char := l.map lowerChar

/-- `str.lower` on strings. -/
def pyLower (s : String) : String := ⟨lowerL s.data⟩

/-- Python `str.strip` whitespace set (ASCII). -/
def pySpace (c : Char) : Bool :=
  c = ' ' ∨ c = '\t' ∨ c = '\n' ∨ c = '\r' ∨ c = '\x0b' ∨ c = '\x0c'

/-- `str.strip` on character lists. -/
def stripL (l : List Char) : List Char :=
  ((l.dropWhile pySpace).reverse.dropWhile pySpace).reverse

/-- `str.strip` on strings. -/
def pyStrip (s : String) : String := ⟨stripL s.data⟩

/-- Decidable check that `needle` starts `hay`. -/
def startsL : List Char → List Char → Bool
  | [], _ => true
  | _ :: _, [] => false
  | a :: as, b :: bs => decide (a = b) && startsL as bs

/-- Decidable substring containment (Python `in` on strings). -/
def containsL (needle : List Char) : List Char → Bool
  | [] => startsL needle []
  | c :: rest => startsL needle (c :: rest) || containsL needle rest

theorem startsL_iff (n h : List Char) :
    startsL n h = true ↔ ∃ post, h = n ++ post := by
  induction n generalizing h with
  | nil => simp [startsL]
  | cons a as ih =>
    cases h with
    | nil => simp [startsL]
    | cons b bs =>
      simp only [startsL, Bool.and_eq_true, decide_eq_true_eq, ih]
      constructor
      · rintro ⟨rfl, post, rfl⟩
        exact ⟨post, rfl⟩
      · rintro ⟨post, hpost⟩
        cases hpost
        exact ⟨rfl, post, rfl⟩

theorem containsL_iff (n h : List Char) :
    containsL n h = true ↔ ∃ pre post, h = pre ++ n ++ post := by
  induction h with
  | nil =>
    simp only [containsL, startsL_iff]
    constructor
    · rintro ⟨post, hpost⟩
      exact ⟨[], post, by simpa using hpost⟩
    · rintro ⟨pre, post, hpost⟩
      refine ⟨post, ?_⟩
      have : pre = [] ∧ n ++ post = [] := by
        constructor
        · cases pre with
          | nil => rfl
          | cons x xs => simp at hpost
        · cases pre with
          | nil => simpa using hpost.symm
          | cons x xs => simp at hpost
      rcases this with ⟨hpre, h2⟩
      simp only [List.append_eq_nil] at h2
      simp [h2.1, h2.2]
  | cons c rest ih =>
    simp only [containsL, Bool.or_eq_true, startsL_iff, ih]
    constructor
    · rintro (⟨post, hpost⟩ | ⟨pre, post, hpost⟩)
      · exact ⟨[], post, by simpa using hpost⟩
      · exact ⟨c :: pre, post, by simp [hpost]⟩
    · rintro ⟨pre, post, hpost⟩
      cases pre with
      | nil => exact Or.inl ⟨post, by simpa using hpost⟩
      | cons x xs =>
        simp only [List.cons_append, List.cons.injEq] at hpost
        exact Or.inr ⟨xs, post, by simp [hpost.2]⟩

/-- Substring containment for strings. -/
def containsS (needle hay : String) : Bool := containsL needle.data hay.data

/-! ## Quota-error classification (`_is_quota_error`, src/main.py:309) -/

/-- `_is_quota_error`: lowercase the error text, then test five substrings. -/
def isQuotaError (err : String) : Bool :=
  let text := lowerL err.data
  containsL "resource_exhausted".data text
    || containsL "quota exceeded".data text
    || containsL "429".data text
    || containsL "rate limit".data text
    || containsL "too many requests".data text

/-- The claimed phrase list, as the spec words it (refinement reference):
case-insensitive substring match against resource-exhausted, quota exceeded,
HTTP 429, rate limit, too many requests. -/
def isQuotaErrorSpec (err : String) : Bool :=
  let text := lowerL err.data
  containsL "resource-exhausted".data text
    || containsL "quota exceeded".data text
    || containsL "http 429".data text
    || containsL "rate limit".data text
    || containsL "too many requests".data text

/-! ## Provider-hinted retry delay (`re.search` in `_generate_content_with_retry`) -/

/-- Numeric value of a digit list (most significant first). -/
def digitsToNat (l : List Char) : Nat :=
  l.foldl (fun a c => a * 10 + (c.toNat - 48)) 0

/-- Milliseconds denoted by integer digits `ds` and fractional digits `fs`
(`int(float(g) * 1000)` for the matched group, computed exactly). -/
def hintMs (ds fs : List Char) : Nat :=
  digitsToNat ds * 1000 + digitsToNat fs * 1000 / 10 ^ fs.length

/-- Try to match `retry in <number>s` at the head of (lowercased) `l`. -/
def parseHintAt (l : List Char) : Option Nat :=
  if startsL "retry in ".data l then
    let rest := l.drop 9
    let ds := rest.takeWhile Char.isDigit
    if ds.isEmpty then none
    else
      match rest.drop ds.length with
      | '.' :: rest3 =>
        let fs := rest3.takeWhile Char.isDigit
        if fs.isEmpty then none
        else if (rest3.drop fs.length).head? = some 's' then some (hintMs ds fs)
        else none
      | 's' :: _ => some (hintMs ds [])
      | _ => none
  else none

/-- Scan for the first match of the hint pattern. -/
def scanHint : List Char → Option Nat
  | [] => none
  | c :: rest =>
    match parseHintAt (c :: rest) with
    | some v => some v
    | none => scanHint rest

/-- Extract the provider-hinted delay in milliseconds from the error text,
mirroring the case-insensitive search for `retry in <seconds>s`. -/
def parseRetryHint (err : String) : Option Nat := scanHint (lowerL err.data)

/-! ## Quota-aware LLM call wrapper (`_generate_content_with_retry`, src/main.py:357) -/

deriving instance DecidableEq for Except

/-- LLM client oracle: prompt and attempt index to error text or response text. -/
abbrev LLMClient := String → Nat → Except String String

/-- Result of the wrapper together with its observable effects: the sleeps
performed (in milliseconds, in order) and the number of client calls made. -/
structure RetryResult where
  result : Except String String
  sleepsMs : List Nat
  calls : Nat
  deriving Repr, DecidableEq

/-- The sleep before a quota retry: never less than `wait_ms`, extended to
the provider-hinted delay when the error text carries one. -/
def retryDelayMs (waitMs : Nat) (err : String) : Nat :=
  match parseRetryHint err with
  | some h => max waitMs h
  | none => waitMs

/-- One loop iteration of `_generate_content_with_retry`; `fuel` is the number
of attempts remaining (`max_retries + 1 - attempt`). -/
def retryGo (client : LLMClient) (contents : String) (maxRetries waitMs : Nat) :
    Nat → Nat → RetryResult
  | _, 0 => ⟨.error "LLM request failed unexpectedly.", [], 0⟩
  | attempt, fuel + 1 =>
    match client contents attempt with
    | .ok text => ⟨.ok text, [], 1⟩
    | .error err =>
      if isQuotaError err && decide (attempt < maxRetries) then
        let r := retryGo client contents maxRetries waitMs (attempt + 1) fuel
        ⟨r.result, retryDelayMs waitMs err :: r.sleepsMs, r.calls + 1⟩
      else ⟨.error err, [], 1⟩

/-- `_generate_content_with_retry`. -/
def generateContentWithRetry (client : LLMClient) (contents : String)
    (maxRetries waitMs : Nat) : RetryResult :=
  retryGo client contents maxRetries waitMs 0 (maxRetries + 1)

/-! ## Deterministic local fallback content (src/main.py:323) -/

/-- Python `str.title` on ASCII text: the Boolean tracks whether the previous
character was cased. -/
def titleAux : List Char → Bool → List Char
  | [], _ => []
  | c :: rest, prevCased =>
    if c.isAlpha then
      (if prevCased then lowerChar c else c.toUpper) :: titleAux rest true
    else c :: titleAux rest false

/-- `str.title` on strings. -/
def pyTitle (s : String) : String := ⟨titleAux s.data false⟩

/-- Subtopic of an outline (`SubTopic` model). -/
structure SubTopic where
  id : String
  title : String
  description : String
  deriving Repr, DecidableEq

/-- Research outline (`ResearchOutline` model). -/
structure ResearchOutline where
  title : String
  description : String
  subTopics : List SubTopic
  deriving Repr, DecidableEq

/-- `_fallback_outline`. -/
def fallbackOutline (topic : String) : ResearchOutline :=
  let base := if pyStrip topic ≠ "" then pyStrip topic else "Research Topic"
  { title := pyTitle base
    description :=
      "This is a fallback outline generated locally because LLM quota is currently exhausted. It still provides a structured map so you can continue your workflow."
    subTopics :=
      [ ⟨"1", "Core Concepts", "Define the foundations of " ++ base ++ "."⟩,
        ⟨"2", "Current Landscape", "Understand where " ++ base ++ " stands today."⟩,
        ⟨"3", "Practical Applications", "Identify real-world uses of " ++ base ++ "."⟩,
        ⟨"4", "Risks and Constraints", "Analyze challenges and limits in " ++ base ++ "."⟩,
        ⟨"5", "Future Outlook", "Explore likely next developments in " ++ base ++ "."⟩ ] }

/-- `_fallback_refinement`. -/
def fallbackRefinement (subtopic topic : String) : String :=
  "Fallback deep-dive for '" ++ subtopic ++ "' under '" ++ topic ++ "'. " ++
  "LLM quota is exhausted, so this insight is generated locally to keep progress moving. " ++
  "Focus on definitions, current patterns, measurable outcomes, constraints, and practical next steps."

/-- Stored refinement entry (`RefinementEntry` model / the dicts appended by refine). -/
structure RefinementEntry where
  subtopic : String
  insight : String
  createdAt : String
  deriving Repr, DecidableEq

/-- The session `Data` blob: outline, refinements, summary, tags. -/
structure SessionData where
  outline : ResearchOutline
  refinements : List RefinementEntry
  summary : String
  tags : List String
  deriving Repr, DecidableEq

/-- `_fallback_finalize`: summary text plus tags drawn from the first five
subtopic titles (or a stock list when those are all blank). -/
def fallbackFinalize (outline : ResearchOutline) : String × List String :=
  let title := outline.title
  let summary :=
    "This session on " ++ title ++ " was finalized with local fallback logic due to LLM quota exhaustion. " ++
    "You have a clear topic framing, subtopic breakdown, and stored refinements to continue analysis."
  let tags := ((outline.subTopics.take 5).map (·.title)).filter (· ≠ "")
  (summary, if tags = [] then ["Research", "Fallback", "Analysis"] else tags)

/-! ## Airtable records and payloads -/

/-- A field value: a plain string, or the JSON-serialized `Data` blob
(kept structured in the model). -/
inductive FieldVal where
  | str (s : String)
  | data (d : SessionData)
  deriving Repr, DecidableEq

/-- A record-shaped mapping of field name to value (a Python dict with
insertion order and unique keys). -/
abbrev Payload := List (String × FieldVal)

/-- Membership of a key (`field in payload`). -/
def hasKey (p : Payload) (k : String) : Bool := p.any (fun e => e.1 = k)

/-- `payload.pop(field, None)`: remove the key. -/
def eraseKey (p : Payload) (k : String) : Payload := p.filter (fun e => e.1 ≠ k)

/-- `payload.get(key, default)`. -/
def getKeyD (p : Payload) (k : String) (d : FieldVal) : FieldVal :=
  match p.find? (fun e => e.1 = k) with
  | some e => e.2
  | none => d

/-- The parsed contents of the `Data` column as stored by this system.
Older records held just the outline payload. -/
inductive DataBlob where
  | full (d : SessionData)
  | outlineOnly (o : ResearchOutline)
  deriving Repr, DecidableEq

/-- The Airtable columns this system reads or writes (absent fields are
`none`, as for a base whose schema lacks them). -/
structure AirFields where
  sessionId : Option String := none
  userId : Option String := none
  topic : Option String := none
  initialOutline : Option String := none
  subtopicsText : Option String := none
  summaryText : Option String := none
  tagsText : Option String := none
  searchText : Option String := none
  status : Option String := none
  createdTimeField : Option String := none
  dataBlob : Option DataBlob := none
  deriving Repr, DecidableEq

/-- A store record: native record id, native created time, fields. -/
structure AirRecord where
  id : String
  createdTime : Option String := none
  fields : AirFields
  deriving Repr, DecidableEq

/-- `_parse_data_blob` (src/main.py:218). -/
def parseDataBlob (f : AirFields) : SessionData :=
  let defaultOutline : ResearchOutline :=
    { title := f.topic.getD "Untitled"
      description := f.initialOutline.getD ""
      subTopics := [] }
  match f.dataBlob with
  | none => { outline := defaultOutline, refinements := [], summary := "", tags := [] }
  | some (.full d) => d
  | some (.outlineOnly o) =>
    { outline := o, refinements := [], summary := "", tags := [] }

/-! ## Schema-drift-tolerant persistence adapter (src/main.py:489) -/

/-- `'Unknown field name: "'` -/
def markerUnknown : String := "Unknown field name: \""

/-- `'Field "'` -/
def markerComputed : String := "Field \""

/-- `'" cannot accept a value because the field is computed'` -/
def markerComputedSuffix : String := "\" cannot accept a value because the field is computed"

/-- `text.split(marker, 1)[1]`: the part after the first occurrence. -/
def afterFirst (pat : List Char) : List Char → List Char
  | [] => []
  | c :: rest => if startsL pat (c :: rest) then (c :: rest).drop pat.length
                 else afterFirst pat rest

/-- `_strip_invalid_airtable_field`: remove one invalid/non-writable field
from the payload if the error message identifies it; `some` of the reduced
payload when a field was removed, `none` otherwise. -/
def stripInvalidAirtableField (err : String) (payload : Payload) : Option Payload :=
  let text := err.data
  let tryUnknown : Option Payload :=
    if containsL markerUnknown.data text then
      let field : String := ⟨(afterFirst markerUnknown.data text).takeWhile (· ≠ '"')⟩
      if hasKey payload field then some (eraseKey payload field) else none
    else none
  match tryUnknown with
  | some p => some p
  | none =>
    let tryComputed : Option Payload :=
      if containsL markerComputed.data text && containsL markerComputedSuffix.data text then
        let field : String := ⟨(afterFirst markerComputed.data text).takeWhile (· ≠ '"')⟩
        if hasKey payload field then some (eraseKey payload field) else none
      else none
    match tryComputed with
    | some p => some p
    | none =>
      if containsL "INVALID_MULTIPLE_CHOICE_OPTIONS".data text && hasKey payload "Status" then
        some (eraseKey payload "Status")
      else none

/-- Result of a resilient write, instrumented with the number of store calls
made, every error text the store returned, and every payload attempted, in
order. -/
structure WriteTrace (α : Type) where
  result : Except String α
  calls : Nat
  storeErrors : List String
  attempts : List Payload
  deriving Repr, DecidableEq

/-- The fixed message raised when create retries are exhausted. -/
def createExhaustedMsg : String :=
  "Unable to create Airtable record after removing invalid fields."

/-- The loop of `_create_record_resilient` (8 attempts). -/
def createGo (create : Payload → Except String AirRecord) :
    Nat → Payload → WriteTrace AirRecord
  | 0, _ => ⟨.error createExhaustedMsg, 0, [], []⟩
  | n + 1, p =>
    match create p with
    | .ok r => ⟨.ok r, 1, [], [p]⟩
    | .error e =>
      match stripInvalidAirtableField e p with
      | some p' =>
        let t := createGo create n p'
        ⟨t.result, t.calls + 1, e :: t.storeErrors, p :: t.attempts⟩
      | none => ⟨.error e, 1, [e], [p]⟩

/-- `_create_record_resilient` (src/main.py:519). -/
def createRecordResilient (create : Payload → Except String AirRecord)
    (fields : Payload) : WriteTrace AirRecord :=
  createGo create 8 fields

/-- The minimal critical-field payload used by the update last resort. -/
def minimalUpdatePayload (fields : Payload) : Payload :=
  [("Data", getKeyD fields "Data" (.str "{}")),
   ("Status", getKeyD fields "Status" (.str "Updated"))]

/-- The loop of `_update_record_resilient` (8 attempts, then the minimal
critical-field write). `fields` is the original payload, used for the last
resort. -/
def updateGo (update : Payload → Except String Unit) (fields : Payload) :
    Nat → Payload → WriteTrace Unit
  | 0, _ =>
    match update (minimalUpdatePayload fields) with
    | .ok _ => ⟨.ok (), 1, [], [minimalUpdatePayload fields]⟩
    | .error e => ⟨.error e, 1, [e], [minimalUpdatePayload fields]⟩
  | n + 1, p =>
    match update p with
    | .ok _ => ⟨.ok (), 1, [], [p]⟩
    | .error e =>
      match stripInvalidAirtableField e p with
      | some p' =>
        let t := updateGo update fields n p'
        ⟨t.result, t.calls + 1, e :: t.storeErrors, p :: t.attempts⟩
      | none => ⟨.error e, 1, [e], [p]⟩

/-- `_update_record_resilient` (src/main.py:533). -/
def updateRecordResilient (update : Payload → Except String Unit)
    (fields : Payload) : WriteTrace Unit :=
  updateGo update fields 8 fields

/-! ## Session cache (src/main.py:549) -/

/-- A cache entry: owning user, creation timestamp, session data. -/
structure CacheItem where
  user_id : String
  created_at : String
  data : SessionData
  deriving Repr, DecidableEq

/-- The process-local `SESSION_CACHE` map. -/
abbrev Cache := List (String × CacheItem)

/-- Dictionary lookup in the cache. -/
def cacheLookup (cache : Cache) (sessionId : String) : Option CacheItem :=
  match cache.find? (fun e => e.1 = sessionId) with
  | some e => some e.2
  | none => none

/-- `_cache_get`: a hit requires the owning user to match. -/
def cacheGet (cache : Cache) (sessionId userId : String) : Option CacheItem :=
  match cacheLookup cache sessionId with
  | none => none
  | some item => if item.user_id = userId then some item else none

/-- `_cache_put` (`now` stands for `datetime.now(...)`). -/
def cachePut (cache : Cache) (sessionId userId : String) (data : SessionData)
    (createdAt : Option String) (now : String) : Cache :=
  (sessionId, ⟨userId, createdAt.getD now, data⟩) :: cache.filter (fun e => e.1 ≠ sessionId)

/-! ## Session resolution (`_find_session_record`, src/main.py:472) -/

/-- Python `a or b` over an optional string and a string (empty is falsy). -/
def pyOr (a : Option String) (b : String) : String :=
  match a with
  | some s => if s = "" then b else s
  | none => b

/-- Python `a or b` over two optional strings (empty is falsy). -/
def pyOrO (a b : Option String) : Option String :=
  match a with
  | some s => if s = "" then b else some s
  | none => b

/-- `_find_session_record`: primary lookup by the Session ID / User ID
formula, then fallback lookup by native record id verified to belong to the
same user. Returns `none` when the store is not configured. -/
def findSessionRecord (tableConfigured : Bool) (store : List AirRecord)
    (sessionId userId : String) : Option AirRecord :=
  if !tableConfigured then none
  else
    match store.find? (fun r =>
        r.fields.sessionId.getD "" = sessionId && r.fields.userId.getD "" = userId) with
    | some r => some r
    | none =>
      match store.find? (fun r => r.id = sessionId) with
      | some r => if r.fields.userId.getD "" = userId then some r else none
      | none => none

/-! ## History filtering (src/main.py:399) -/

/-- `_matches_filters`: `categoryValues` and `search` arrive already
normalized (lowercased; `search` also stripped). -/
def matchesFilters (outline : ResearchOutline) (tags : List String)
    (categoryValues : List String) (search : String) : Bool :=
  let catOk :=
    if categoryValues ≠ [] then
      let tagL := tags.map (fun t => lowerL t.data)
      categoryValues.any (fun cat => tagL.any (fun t => containsL cat.data t))
    else true
  let searchOk :=
    if search ≠ "" then
      let title := lowerL outline.title.data
      let description := lowerL outline.description.data
      let subtopics := outline.subTopics.map (fun x => lowerL x.title.data)
      let tagsL := tags.map (fun t => lowerL t.data)
      containsL search.data title || containsL search.data description
        || subtopics.any (fun x => containsL search.data x)
        || tagsL.any (fun x => containsL search.data x)
    else true
  catOk && searchOk

/-- Store-side evaluation of `_build_history_formula`: user match, an
OR-of-substring over the lowercased `Tags` column, and an OR-of-substring over
the lowercased `Topic`/`Subtopics`/`Summary`/`Tags` columns (absent columns
read as blank). -/
def historyFormulaPred (userId : String) (categoryValues : List String)
    (search : String) (r : AirRecord) : Bool :=
  (r.fields.userId.getD "" = userId : Bool)
    && (categoryValues.isEmpty
        || categoryValues.any (fun cat =>
             containsL cat.data (lowerL (r.fields.tagsText.getD "").data)))
    && (search = "" : Bool).or
        (containsL search.data (lowerL (r.fields.topic.getD "").data)
          || containsL search.data (lowerL (r.fields.subtopicsText.getD "").data)
          || containsL search.data (lowerL (r.fields.summaryText.getD "").data)
          || containsL search.data (lowerL (r.fields.tagsText.getD "").data))

/-- Split a character list on commas (Python `str.split(",")`). -/
def splitComma : List Char → List (List Char)
  | [] => [[]]
  | c :: rest =>
    let r := splitComma rest
    if c = ',' then [] :: r
    else
      match r with
      | [] => [[c]]
      | h :: t => (c :: h) :: t

/-- `sep.join(items)`. -/
def joinSep (sep : String) : List String → String
  | [] => ""
  | [x] => x
  | x :: xs => x ++ sep ++ joinSep sep xs

/-- `_progress_for` (src/main.py:270). -/
def progressFor (d : SessionData) : Nat :=
  let p := 25
  let p := p + (if d.outline.subTopics ≠ [] then 25 else 0)
  let p := p + (if d.refinements ≠ [] then 25 else 0)
  let p := p + (if pyStrip d.summary ≠ "" ∨ d.tags ≠ [] then 25 else 0)
  min p 100

/-- History item (`ResearchResponse` model). -/
structure ResearchResponse where
  sessionId : String
  outline : ResearchOutline
  createdAt : Option String
  tags : List String
  progress : Nat
  deriving Repr, DecidableEq

/-- `max_records` truncation: `none` means no limit. -/
def takeOpt (limit : Option Nat) (l : List AirRecord) : List AirRecord :=
  match limit with
  | none => l
  | some n => l.take n

/-- The records fetched by `_build_history_items`: the formula-filtered
prefix, or — when formula evaluation fails on the base (`formulaFails`) —
the user-only-filtered prefix. -/
def historyFetchRecords (store : List AirRecord) (formulaFails : Bool)
    (userId : String) (categoryValues : List String) (search : String)
    (limit : Option Nat) : List AirRecord :=
  if formulaFails then
    takeOpt limit (store.filter (fun r => r.fields.userId.getD "" = userId))
  else
    takeOpt limit (store.filter (historyFormulaPred userId categoryValues search))

/-- Category values after normalization in `_build_history_items`. -/
def normalizeCategory (category : String) : List String :=
  let normalized := pyLower (pyStrip category)
  if normalized = "" ∨ normalized = "all" then []
  else ((splitComma normalized.data).map (fun l => pyStrip ⟨l⟩)).filter (· ≠ "")

/-- One record turned into a history item, or dropped by the in-process
filter (the body of the loop in `_build_history_items`). -/
def historyItemOf (categoryValues : List String) (search : String)
    (r : AirRecord) : Option ResearchResponse :=
  let data := parseDataBlob r.fields
  let outline := data.outline
  let tags := (data.tags.map pyStrip).filter (· ≠ "")
  if matchesFilters outline tags categoryValues search then
    some
      { sessionId := pyOr r.fields.sessionId (pyOr (some r.id) "UNKNOWN")
        outline := outline
        createdAt := pyOrO r.fields.createdTimeField r.createdTime
        tags := tags
        progress := progressFor data }
  else none

/-- `_build_history_items` (src/main.py:436). -/
def buildHistoryItems (store : List AirRecord) (formulaFails : Bool)
    (userId category search : String) (limit : Option Nat) : List ResearchResponse :=
  let categoryValues := normalizeCategory category
  let normalizedSearch := pyLower (pyStrip search)
  (historyFetchRecords store formulaFails userId categoryValues normalizedSearch limit).filterMap
    (historyItemOf categoryValues normalizedSearch)

/-! ## Paged history (src/main.py:672) -/

/-- `PagedHistoryResponse` model. -/
structure PagedHistoryResponse where
  items : List ResearchResponse
  page : Nat
  limit : Nat
  total : Nat
  totalPages : Nat
  deriving Repr, DecidableEq

/-- `get_history_paged`: clamp page and limit, fetch one page beyond the
requested window, slice, and report totals from what was seen. -/
def getHistoryPaged (store : List AirRecord) (formulaFails : Bool)
    (userId category search : String) (page limit : Int) : PagedHistoryResponse :=
  let safePage := (max 1 page).toNat
  let safeLimit := (min (max 1 limit) 100).toNat
  let fetchLimit := safePage * safeLimit + 1
  let items := buildHistoryItems store formulaFails userId category search (some fetchLimit)
  let start := (safePage - 1) * safeLimit
  let stop := start + safeLimit
  let pagedItems := (items.drop start).take safeLimit
  let hasMore := decide (items.length > stop)
  let total := start + pagedItems.length + (if hasMore then 1 else 0)
  let totalPages := safePage + (if hasMore then 1 else 0)
  { items := pagedItems, page := safePage, limit := safeLimit,
    total := total, totalPages := totalPages }

/-! ## Prompts (src/main.py:133) -/

/-- `SYSTEM_PROMPT`. -/
def SYSTEM_PROMPT : String :=
  "\nYou are the Cerebro Research Decomposer. Your goal is to take a research topic and break it down into a structured map of knowledge.\n\nOutput must be in valid JSON format.\nFollow this schema:\n\x7b\n  \"title\": \"Main Topic Title\",\n  \"description\": \"A high-level overview of the topic (2-3 sentences).\",\n  \"subTopics\": [\n    \x7b\n      \"id\": \"1\",\n      \"title\": \"Subtopic Label\",\n      \"description\": \"A brief summary of why this subtopic matters.\"\n    \x7d\n  ]\n\x7d\n\nConstraints:\n1. Provide exactly 4-6 subtopics.\n2. Ensure descriptions are concise and informative.\n3. Only return the JSON object. No Markdown headers or code blocks.\n"

/-- `REFINEMENT_PROMPT`. -/
def REFINEMENT_PROMPT : String :=
  "\nYou are a research analyst. Given a topic and a selected subtopic, provide a concise deep-dive insight.\nReturn ONLY JSON with this schema:\n\x7b\n  \"insight\": \"A concise, practical deep dive (4-7 sentences).\"\n\x7d\n"

/-- `FINALIZE_PROMPT`. -/
def FINALIZE_PROMPT : String :=
  "\nYou are a research summarizer. Given a topic and collected findings, produce a final summary and tags.\nReturn ONLY JSON with this schema:\n\x7b\n  \"summary\": \"A concise final synthesis (5-8 sentences).\",\n  \"tags\": [\"tag1\", \"tag2\", \"tag3\", \"tag4\", \"tag5\"]\n\x7d\nConstraints:\n1. Return 4-8 tags.\n2. Tags should be short, title-case, and non-duplicated.\n"

/-- The text `json.loads` receives when the model returned an empty body. -/
def emptyJson : String := "\x7b\x7d"

/-- The prompt sent by `start_research`. -/
def startPrompt (topic : String) : String :=
  SYSTEM_PROMPT ++ "\n\nUSER TOPIC: " ++ topic

/-- The prompt sent by `refine_research`. -/
def refinePrompt (outline : ResearchOutline) (subtopic : String) : String :=
  REFINEMENT_PROMPT ++ "\n\n" ++ "TOPIC: " ++ outline.title ++ "\n" ++
  "TOPIC DESCRIPTION: " ++ outline.description ++ "\n" ++
  "SELECTED SUBTOPIC: " ++ subtopic ++ "\n"

/-- `findings_text` as assembled by `finalize_research` (src/main.py:870). -/
def findingsText (outline : ResearchOutline) (refinements : List RefinementEntry) : String :=
  let findings := [outline.description] ++
    ((refinements.filter (fun x => x.insight ≠ "")).map (·.insight))
  joinSep "\n" ((findings.filter (· ≠ "")).map (fun x => "- " ++ x))

/-- The prompt sent by `finalize_research`. -/
def finalizePrompt (outline : ResearchOutline) (refinements : List RefinementEntry) : String :=
  FINALIZE_PROMPT ++ "\n\n" ++ "TOPIC: " ++ outline.title ++ "\n" ++
  "FINDINGS:\n" ++ findingsText outline refinements ++ "\n"

/-! ## Order-preserving de-duplication (`list(dict.fromkeys(...))`) -/

/-- `dict.fromkeys` insertion-order semantics: keep the first occurrence of
each element, tracking what has been seen. -/
def dedupFirstAux (seen : List String) : List String → List String
  | [] => []
  | x :: xs =>
    if x ∈ seen then dedupFirstAux seen xs
    else x :: dedupFirstAux (x :: seen) xs

/-- `list(dict.fromkeys(l))`. -/
def dedupFirst (l : List String) : List String := dedupFirstAux [] l

/-! ## Provider-issue bookkeeping, observable as a trace -/

/-- One provider-issue side effect. -/
inductive PEvent where
  | setIssue (provider kind : String)
  | clearIssue (provider : String)
  deriving Repr, DecidableEq

/-! ## Session detail (`get_session`, src/main.py:732) -/

/-- `SessionDetail` model. -/
structure SessionDetail where
  sessionId : String
  outline : ResearchOutline
  createdAt : Option String
  refinements : List RefinementEntry
  summary : Option String
  tags : List String
  deriving Repr, DecidableEq

/-- Outcome of a session-detail request. -/
inductive SessionOutcome where
  | ok (d : SessionDetail)
  | httpError (code : Nat) (detail : String)
  deriving Repr, DecidableEq

/-- The store path of `get_session`: require the table, resolve the record,
404 when absent. -/
def getSessionStorePath (tableConfigured : Bool) (store : List AirRecord)
    (sessionId userId : String) : SessionOutcome :=
  if !tableConfigured then .httpError 503 "Airtable not configured."
  else
    match findSessionRecord true store sessionId userId with
    | none => .httpError 404 "Session not found."
    | some record =>
      let data := parseDataBlob record.fields
      .ok
        { sessionId := pyOr record.fields.sessionId record.id
          outline := data.outline
          createdAt := pyOrO record.fields.createdTimeField record.createdTime
          refinements := data.refinements
          summary := if data.summary = "" then none else some data.summary
          tags := data.tags }

/-- `get_session`: cache first (keyed by id, owner must match), else the
store path. The Boolean reports whether the store path was taken. -/
def getSession (tableConfigured : Bool) (store : List AirRecord) (cache : Cache)
    (sessionId userId : String) : SessionOutcome × Bool :=
  match cacheGet cache sessionId userId with
  | some item =>
    (.ok
      { sessionId := sessionId
        outline := item.data.outline
        createdAt := some item.created_at
        refinements := item.data.refinements
        summary := if item.data.summary = "" then none else some item.data.summary
        tags := item.data.tags }, false)
  | none => (getSessionStorePath tableConfigured store sessionId userId, true)

/-! ## Start (src/main.py:564) -/

/-- Outcome of `/research/start`. -/
inductive StartOutcome where
  | ok (sessionId : String) (outline : ResearchOutline) (tags : List String) (progress : Nat)
  | httpError (code : Nat) (detail : String)
  deriving Repr, DecidableEq

/-- The create payload assembled by `start_research` (src/main.py:611). -/
def startCreateFields (sessionId userId topic : String) (rawData : ResearchOutline)
    (sessionPayload : SessionData) : Payload :=
  let subtopicsList := joinSep ", " (rawData.subTopics.map (·.title))
  [("Session ID", .str sessionId), ("User ID", .str userId), ("Topic", .str topic),
   ("Subtopics", .str subtopicsList),
   ("Initial Outline", .str rawData.description),
   ("Summary", .str ""), ("Tags", .str ""),
   ("Search Text", .str (topic ++ " " ++ subtopicsList ++ " " ++ rawData.description)),
   ("Status", .str "Initialized"),
   ("Data", .data sessionPayload)]

/-- The store-write step of `start_research`: a write failure is recorded as
a provider issue and the generated session id is kept; a successful write
substitutes the persisted session id when truthy. -/
def startStoreStep (tableConfigured : Bool)
    (create : Payload → Except String AirRecord)
    (genSid userId topic : String) (rawData : ResearchOutline)
    (sessionPayload : SessionData) : String × List PEvent :=
  if tableConfigured then
    match (createRecordResilient create
        (startCreateFields genSid userId topic rawData sessionPayload)).result with
    | .ok rec =>
      let persisted := pyOr rec.fields.sessionId rec.id
      (if persisted ≠ "" then persisted else genSid, [])
    | .error _ => (genSid, [.setIssue "airtable" "write_error"])
  else (genSid, [])

/-- `start_research`: quota-aware LLM call, optional local fallback,
best-effort store write, cache insertion. Auth and the rate limiter are
outside the model; `genSid` stands for the generated `SESS-…` id and `now`
for the current timestamp. -/
def startResearch (genaiConfigured fallbackEnabled : Bool) (client : LLMClient)
    (parseOutline : String → Except String ResearchOutline)
    (tableConfigured : Bool) (create : Payload → Except String AirRecord)
    (genSid topic userId now : String) (cache : Cache) :
    StartOutcome × Cache × List PEvent :=
  if !genaiConfigured then (.httpError 500 "Groq API key not configured.", cache, [])
  else
    let r := generateContentWithRetry client (startPrompt topic) 1 10000
    let parsed : Except String ResearchOutline :=
      match r.result with
      | .ok text => parseOutline (if text = "" then emptyJson else text)
      | .error e => .error e
    let continueWith (rawData : ResearchOutline) (ev : List PEvent) :
        StartOutcome × Cache × List PEvent :=
      let sessionPayload : SessionData :=
        { outline := rawData, refinements := [], summary := "", tags := [] }
      let step := startStoreStep tableConfigured create genSid userId topic rawData sessionPayload
      (.ok step.1 rawData [] 50,
       cachePut cache step.1 userId sessionPayload none now,
       ev ++ step.2)
    match parsed with
    | .ok rawData => continueWith rawData [.clearIssue "llm"]
    | .error e =>
      if isQuotaError e && fallbackEnabled then
        continueWith (fallbackOutline topic) [.setIssue "llm" "quota"]
      else if isQuotaError e then
        -- the inner 429 is re-caught by the handler-wide except, whose text
        -- check on "429" re-raises the generic quota response
        (.httpError 429 "LLM API quota exhausted. Add billing/key or use fallback mode.",
         cache, [.setIssue "llm" "quota", .setIssue "llm" "quota"])
      else if containsS "429" e || containsS "ResourceExhausted" e then
        (.httpError 429 "LLM API quota exhausted. Add billing/key or use fallback mode.",
         cache, [.setIssue "llm" "error", .setIssue "llm" "quota"])
      else
        (.httpError 500 e, cache, [.setIssue "llm" "error"])

/-! ## Refine (src/main.py:767) -/

/-- Outcome of `/research/refine`. -/
inductive RefineOutcome where
  | ok (sessionId subtopic insight : String)
  | httpError (code : Nat) (detail : String)
  deriving Repr, DecidableEq

/-- The session data after refine appends one refinement. -/
def refineDataAfter (data : SessionData) (subtopic insight now : String) : SessionData :=
  { data with refinements := data.refinements ++ [⟨subtopic, insight, now⟩] }

/-- The update payload assembled by `refine_research` (src/main.py:828). -/
def refineUpdateFields (data : SessionData) (outline : ResearchOutline)
    (subtopic insight : String) : Payload :=
  [("Data", .data data), ("Summary", .str data.summary),
   ("Tags", .str (joinSep ", " data.tags)),
   ("Search Text", .str (outline.title ++ " " ++ outline.description ++ " " ++
      subtopic ++ " " ++ insight)),
   ("Status", .str "Refined")]

/-- `refine_research`: resolve the session (cache, then store), quota-aware
LLM deep-dive with optional fallback, append the refinement, cache it, and
update the store when a record was resolved. -/
def refineResearch (genaiConfigured fallbackEnabled : Bool) (client : LLMClient)
    (parseInsight : String → Except String String)
    (tableConfigured : Bool) (store : List AirRecord)
    (update : String → Payload → Except String Unit)
    (cache : Cache) (sessionId userId subtopic now : String) :
    RefineOutcome × Cache × List PEvent :=
  if !genaiConfigured then (.httpError 500 "Groq API key not configured.", cache, [])
  else
    let cached := cacheGet cache sessionId userId
    let record := findSessionRecord tableConfigured store sessionId userId
    if cached.isNone && record.isNone then
      (.httpError 404 "Session not found.", cache, [])
    else
      let dataOpt : Option SessionData :=
        match cached with
        | some it => some it.data
        | none =>
          match record with
          | some rec => some (parseDataBlob rec.fields)
          | none => none
      match dataOpt with
      | none => (.httpError 404 "Session not found.", cache, [])
      | some data =>
        let outline := data.outline
        let r := generateContentWithRetry client (refinePrompt outline subtopic) 1 10000
        let parsed : Except String String :=
          match r.result with
          | .ok text =>
            match parseInsight (if text = "" then emptyJson else text) with
            | .ok v => .ok (pyStrip v)
            | .error e => .error e
          | .error e => .error e
        let insightE : Except (Nat × String) (String × List PEvent) :=
          match parsed with
          | .ok insight => .ok (insight, [.clearIssue "llm"])
          | .error e =>
            if isQuotaError e && fallbackEnabled then
              .ok (fallbackRefinement subtopic outline.title, [.setIssue "llm" "quota"])
            else .error (0, e)
        match parsed, insightE with
        | _, .ok (insight, ev1) =>
          if insight = "" then
            (.httpError 500 "AI returned an empty refinement.", cache, ev1)
          else
            let data' := refineDataAfter data subtopic insight now
            let cache' := cachePut cache sessionId userId data' (cached.map (·.created_at)) now
            match record with
            | some rec =>
              match (updateRecordResilient (update rec.id)
                  (refineUpdateFields data' outline subtopic insight)).result with
              | .ok _ =>
                (.ok sessionId subtopic insight, cache', ev1 ++ [.clearIssue "airtable"])
              | .error e =>
                if containsS "429" e || containsS "ResourceExhausted" e then
                  (.httpError 429 "LLM API quota exhausted. Please try again soon.",
                   cache', ev1 ++ [.setIssue "llm" "quota"])
                else
                  (.httpError 500 ("Failed to refine research: " ++ e),
                   cache', ev1 ++ [.setIssue "airtable" "write_error"])
            | none => (.ok sessionId subtopic insight, cache', ev1)
        | _, .error (_, e) =>
          if isQuotaError e then
            (.httpError 429 "LLM quota exhausted. Cannot generate deep-dive.",
             cache, [.setIssue "llm" "quota"])
          else if containsS "429" e || containsS "ResourceExhausted" e then
            (.httpError 429 "LLM API quota exhausted. Please try again soon.",
             cache, [.setIssue "llm" "error", .setIssue "llm" "quota"])
          else
            (.httpError 500 ("Failed to refine research: " ++ e),
             cache, [.setIssue "llm" "error", .setIssue "airtable" "write_error"])

/-! ## Finalize (src/main.py:849) -/

/-- Outcome of `/research/finalize`. -/
inductive FinalizeOutcome where
  | ok (sessionId summary : String) (tags : List String)
  | httpError (code : Nat) (detail : String)
  deriving Repr, DecidableEq

/-- The update payload assembled by `finalize_research` (src/main.py:918). -/
def finalizeUpdateFields (data : SessionData) (outline : ResearchOutline)
    (summary : String) : Payload :=
  [("Data", .data data), ("Summary", .str summary),
   ("Tags", .str (joinSep ", " data.tags)),
   ("Search Text", .str (outline.title ++ " " ++ outline.description ++ " " ++
      summary ++ " " ++ joinSep " " data.tags)),
   ("Status", .str "Finalized")]

/-- The summary/tags selection of `finalize_research` after the LLM step:
empty derived tags fall back to subtopic titles, a cleaned non-blank caller
override wins, and the stored list is order-preserving de-duplicated. -/
def finalizeSelectTags (outline : ResearchOutline) (payloadTags : Option (List String))
    (tags : List String) : List String :=
  let tags := if tags = [] then ((outline.subTopics.take 5).map (·.title)).filter (· ≠ "") else tags
  let selectedTags := ((payloadTags.getD []).map pyStrip).filter (· ≠ "")
  let finalTags := if selectedTags ≠ [] then selectedTags else tags
  dedupFirst finalTags

/-- The session data after finalize overwrites summary and tags. -/
def finalizeDataAfter (data : SessionData) (outline : ResearchOutline)
    (payloadTags : Option (List String)) (summary : String) (tags : List String) :
    SessionData :=
  { data with summary := summary, tags := finalizeSelectTags outline payloadTags tags }

/-- `finalize_research`: resolve the session, quota-aware LLM summary/tags
with optional fallback, override/normalize tags, overwrite summary and tags
in the session data, cache it, and update the store when a record was
resolved. -/
def finalizeResearch (genaiConfigured fallbackEnabled : Bool) (client : LLMClient)
    (parseFinal : String → Except String (String × List String))
    (tableConfigured : Bool) (store : List AirRecord)
    (update : String → Payload → Except String Unit)
    (cache : Cache) (sessionId userId : String) (payloadTags : Option (List String))
    (now : String) : FinalizeOutcome × Cache × List PEvent :=
  if !genaiConfigured then (.httpError 500 "Groq API key not configured.", cache, [])
  else
    let cached := cacheGet cache sessionId userId
    let record := findSessionRecord tableConfigured store sessionId userId
    if cached.isNone && record.isNone then
      (.httpError 404 "Session not found.", cache, [])
    else
      let dataOpt : Option SessionData :=
        match cached with
        | some it => some it.data
        | none =>
          match record with
          | some rec => some (parseDataBlob rec.fields)
          | none => none
      match dataOpt with
      | none => (.httpError 404 "Session not found.", cache, [])
      | some data =>
        let outline := data.outline
        let refinements := data.refinements
        let r := generateContentWithRetry client (finalizePrompt outline refinements) 1 10000
        let parsed : Except String (String × List String) :=
          match r.result with
          | .ok text =>
            match parseFinal (if text = "" then emptyJson else text) with
            | .ok (s, t) => .ok (pyStrip s, (t.map pyStrip).filter (· ≠ ""))
            | .error e => .error e
          | .error e => .error e
        let summaryTagsE : Except String (String × List String × List PEvent) :=
          match parsed with
          | .ok (s, t) => .ok (s, t, [.clearIssue "llm"])
          | .error e =>
            if isQuotaError e && fallbackEnabled then
              let f := fallbackFinalize outline
              .ok (f.1, f.2, [.setIssue "llm" "quota"])
            else .error e
        match summaryTagsE with
        | .ok (summary, tags, ev1) =>
          if summary = "" then
            (.httpError 500 "AI returned an empty final summary.", cache, ev1)
          else
            let data' := finalizeDataAfter data outline payloadTags summary tags
            let cache' := cachePut cache sessionId userId data' (cached.map (·.created_at)) now
            match record with
            | some rec =>
              match (updateRecordResilient (update rec.id)
                  (finalizeUpdateFields data' outline summary)).result with
              | .ok _ =>
                (.ok sessionId summary data'.tags, cache', ev1 ++ [.clearIssue "airtable"])
              | .error e =>
                if containsS "429" e || containsS "ResourceExhausted" e then
                  (.httpError 429 "LLM API quota exhausted. Please try again soon.",
                   cache', ev1 ++ [.setIssue "llm" "quota"])
                else
                  (.httpError 500 ("Failed to finalize research: " ++ e),
                   cache', ev1 ++ [.setIssue "airtable" "write_error"])
            | none => (.ok sessionId summary data'.tags, cache', ev1)
        | .error e =>
          if isQuotaError e then
            (.httpError 429 "LLM quota exhausted. Cannot finalize session.",
             cache, [.setIssue "llm" "quota"])
          else if containsS "429" e || containsS "ResourceExhausted" e then
            (.httpError 429 "LLM API quota exhausted. Please try again soon.",
             cache, [.setIssue "llm" "error", .setIssue "llm" "quota"])
          else
            (.httpError 500 ("Failed to finalize research: " ++ e),
             cache, [.setIssue "llm" "error", .setIssue "airtable" "write_error"])

/-! ## Concrete fixtures used by witnesses and counterexamples -/

/-- A client that is rate-limited with a provider hint on its first attempt
and succeeds on the second. -/
def clientHinted : LLMClient := fun _ n =>
  if n = 0 then .error "rate limit hit; retry in 30s" else .ok "OK"

/-- A client that always reports a plain HTTP 429 rate limit. -/
def clientQuota : LLMClient := fun _ _ => .error "429 Too Many Requests"

/-- A JSON-parse oracle that is never consulted in the scenarios using it. -/
def parseNever : String → Except String ResearchOutline := fun _ => .error "unused"

/-- A store-create oracle that always fails plainly. -/
def createNever : Payload → Except String AirRecord := fun _ => .error "no store"

/-- A small outline fixture. -/
def outlineW : ResearchOutline :=
  { title := "T", description := "D", subTopics := [⟨"1", "S1", "d1"⟩] }

/-- A small session-data fixture. -/
def dataW : SessionData :=
  { outline := outlineW, refinements := [⟨"s", "i", "t1"⟩], summary := "", tags := ["A"] }

/-- A cache entry owned by user `u`. -/
def itemW : CacheItem := ⟨"u", "2024-01-01T00:00:00Z", dataW⟩

/-- A cache holding session `S1` for user `u`. -/
def cacheW : Cache := [("S1", itemW)]

/-- A store record of user `u` under session id `S2`. -/
def recW : AirRecord :=
  { id := "recX", createdTime := some "2024-01-02T00:00:00Z",
    fields := { sessionId := some "S2", userId := some "u",
                dataBlob := some (.full dataW) } }

/-- A store holding one record of user `u` under session id `S2`. -/
def storeW : List AirRecord := [recW]

/-- An outline-parse oracle returning a fixed outline. -/
def parseStartOK : String → Except String ResearchOutline := fun _ => .ok outlineW

/-- A summary/tags-parse oracle returning a fixed summary and tag list with a
duplicate. -/
def parseFinalOK : String → Except String (String × List String) :=
  fun _ => .ok ("Summary text", ["Alpha", "Beta", "Alpha"])

/-- An insight-parse oracle that is never consulted where it is used. -/
def parseInsightNever : String → Except String String := fun _ => .error "unused"

/-- A store-update oracle that always succeeds. -/
def updateOk : String → Payload → Except String Unit := fun _ _ => .ok ()

/-- A store record of user `u` with session id `S<i>`. -/
def recU (i : String) : AirRecord :=
  { id := "rec" ++ i,
    fields := { sessionId := some ("S" ++ i), userId := some "u",
                dataBlob := some (.full dataW) } }

/-- Five matching sessions of user `u`. -/
def store5 : List AirRecord := [recU "1", recU "2", recU "3", recU "4", recU "5"]

/-- The claim's matching predicate (refinement reference): some field of the
returned session — title, description, a subtopic title, or a tag —
case-insensitively contains the given string. -/
def claimC9Matches (search : String) (item : ResearchResponse) : Bool :=
  let q := lowerL search.data
  containsL q (lowerL item.outline.title.data)
    || containsL q (lowerL item.outline.description.data)
    || item.outline.subTopics.any (fun st => containsL q (lowerL st.title.data))
    || item.tags.any (fun t => containsL q (lowerL t.data))

/-- Session data whose outline title is just `x`. -/
def dataX : SessionData :=
  { outline := { title := "x", description := "", subTopics := [] },
    refinements := [], summary := "", tags := [] }

/-- A store whose only record is the `x` session of user `u` (the `Topic`
column mirrors the title, as the start handler writes it). -/
def storeX : List AirRecord :=
  [{ id := "r1",
     fields := { sessionId := some "SX", userId := some "u", topic := some "x",
                 dataBlob := some (.full dataX) } }]

/-- The history item built from `storeX`. -/
def itemX : ResearchResponse :=
  { sessionId := "SX", outline := dataX.outline, createdAt := none,
    tags := [], progress := 25 }

/-- A client that always succeeds with a fixed response body. -/
def clientOK : LLMClient := fun _ _ => .ok "resp"

/-- An insight-parse oracle returning a fixed insight. -/
def parseInsightOK : String → Except String String := fun _ => .ok "An insight"

/-- A store-update oracle that always fails with an error naming no field. -/
def updateBoom : String → Payload → Except String Unit :=
  fun _ _ => .error "disk offline"

/-- A store-update oracle that always fails with a store-side rate limit
whose text carries `429` but names no field. -/
def updateBoom429 : String → Payload → Except String Unit :=
  fun _ _ => .error "429 Client Error: Too Many Requests"

/-- First key of a payload (helper for the rejecting store below). -/
def firstKey : Payload → String
  | [] => "none"
  | e :: _ => e.1

/-- A store whose create always rejects the first field of the payload as an
unknown field. -/
def createC : Payload → Except String AirRecord :=
  fun p => .error (markerUnknown ++ firstKey p ++ "\"")

/-- A nine-field payload. -/
def p9 : Payload :=
  [("F1", .str ""), ("F2", .str ""), ("F3", .str ""), ("F4", .str ""),
   ("F5", .str ""), ("F6", .str ""), ("F7", .str ""), ("F8", .str ""),
   ("F9", .str "")]

/-- A store whose update always rejects the first field of the payload as an
unknown field. -/
def updateC : Payload → Except String Unit :=
  fun p => .error (markerUnknown ++ firstKey p ++ "\"")

/-- A store whose create fails with an error naming no field. -/
def createBoom : Payload → Except String AirRecord := fun _ => .error "boom"

/-- A payload with the write-path field names. -/
def p9T : Payload :=
  [("Session ID", .str "S"), ("Tags", .str ""), ("Status", .str "Initialized"),
   ("Data", .str "")]

/-! # Theorems -/

theorem titleAux_length (l : List Char) (b : Bool) :
    (titleAux l b).length = l.length := by
  induction l generalizing b with
  | nil => simp [titleAux]
  | cons c rest ih =>
    cases hc : c.isAlpha <;> simp [titleAux, hc, ih]

theorem pyTitle_ne_empty (s : String) (h : s ≠ "") : pyTitle s ≠ "" := by
  intro hc
  apply h
  have hdata : (titleAux s.data false) = [] := by
    have := congrArg String.data hc
    simpa [pyTitle] using this
  have hlen := titleAux_length s.data false
  rw [hdata] at hlen
  have : s.data = [] := List.length_eq_zero.mp hlen.symm
  cases s
  simp_all

theorem fallbackOutline_title_ne_empty (topic : String) :
    (fallbackOutline topic).title ≠ "" := by
  unfold fallbackOutline
  by_cases h : pyStrip topic = ""
  · simp only [h, ne_eq, not_true_eq_false, if_false]
    exact pyTitle_ne_empty _ (by decide)
  · simp only [ne_eq, h, not_false_eq_true, if_true]
    exact pyTitle_ne_empty _ h

/-- C5 (counterexample): the code classifies text containing a bare `429`
as a quota error although it contains none of the phrases listed by the
claim (`resource-exhausted`, `quota exceeded`, `HTTP 429`, `rate limit`,
`too many requests`), so the claimed "if and only if" fails. -/
theorem claim_C5_counterexample :
    isQuotaError "Error: received status 429 from upstream" = true ∧
    isQuotaErrorSpec "Error: received status 429 from upstream" = false := by
  decide

/-- C5 (amended): an exception is classified as a quota error iff its
lowercased text contains `resource_exhausted` (underscored), `quota
exceeded`, `429` (bare, not only `HTTP 429`), `rate limit`, or `too many
requests`, as substrings. -/
theorem claim_C5 (err : String) :
    isQuotaError err = true ↔
      (∃ pre post, lowerL err.data = pre ++ "resource_exhausted".data ++ post) ∨
      (∃ pre post, lowerL err.data = pre ++ "quota exceeded".data ++ post) ∨
      (∃ pre post, lowerL err.data = pre ++ "429".data ++ post) ∨
      (∃ pre post, lowerL err.data = pre ++ "rate limit".data ++ post) ∨
      (∃ pre post, lowerL err.data = pre ++ "too many requests".data ++ post) := by
  simp [isQuotaError, containsL_iff, or_assoc]

/-- C4: the quota-aware wrapper calls the client once and returns its
success; a non-quota error propagates without retry; a quota error sleeps
once for `max(wait, hint)` milliseconds — at least the configured wait, and
at least the provider hint when present — then retries exactly once, and the
second outcome (success or any error) is final. -/
theorem claim_C4 (client : LLMClient) (contents : String) (waitMs : Nat) :
    (∀ t, client contents 0 = .ok t →
      generateContentWithRetry client contents 1 waitMs = ⟨.ok t, [], 1⟩) ∧
    (∀ e, client contents 0 = .error e → isQuotaError e = false →
      generateContentWithRetry client contents 1 waitMs = ⟨.error e, [], 1⟩) ∧
    (∀ e, client contents 0 = .error e → isQuotaError e = true →
      waitMs ≤ retryDelayMs waitMs e ∧
      (∀ h, parseRetryHint e = some h → h ≤ retryDelayMs waitMs e) ∧
      (∀ t, client contents 1 = .ok t →
        generateContentWithRetry client contents 1 waitMs =
          ⟨.ok t, [retryDelayMs waitMs e], 2⟩) ∧
      (∀ e2, client contents 1 = .error e2 →
        generateContentWithRetry client contents 1 waitMs =
          ⟨.error e2, [retryDelayMs waitMs e], 2⟩)) := by
  refine ⟨?_, ?_, ?_⟩
  · intro t h
    simp [generateContentWithRetry, retryGo, h]
  · intro e h hq
    simp [generateContentWithRetry, retryGo, h, hq]
  · intro e h hq
    refine ⟨?_, ?_, ?_, ?_⟩
    · unfold retryDelayMs
      cases parseRetryHint e with
      | none => exact le_refl _
      | some h => exact Nat.le_max_left _ _
    · intro hh hhint
      unfold retryDelayMs
      rw [hhint]
      exact Nat.le_max_right _ _
    · intro t h2
      simp [generateContentWithRetry, retryGo, h, hq, h2]
    · intro e2 h2
      simp [generateContentWithRetry, retryGo, h, hq, h2]

/-- C4 (witness): a concrete rate-limited first attempt carrying the hint
`retry in 30s` with configured wait 10000 ms sleeps 30000 ms, retries once,
and returns the second attempt's success. -/
theorem claim_C4_witness :
    generateContentWithRetry clientHinted "p" 1 10000 = ⟨.ok "OK", [30000], 2⟩ ∧
    retryDelayMs 10000 "rate limit hit; retry in 30s" = 30000 := by
  have h := (claim_C4 clientHinted "p" 10000).2.2 "rate limit hit; retry in 30s"
    rfl (by decide)
  have h2 := h.2.2.1 "OK" rfl
  exact ⟨by rw [h2]; decide, by decide⟩

/-- C6: when the LLM step of start fails with a recognized quota error, the
handler with fallback enabled returns the deterministic locally generated
fallback outline (success, progress 50) — whose title is non-empty, whose
description is non-empty, and which has exactly 5 subtopics — while with
fallback disabled it fails with a rate-limited 429 response. -/
theorem claim_C6 (client : LLMClient)
    (parseOutline : String → Except String ResearchOutline)
    (tableConfigured : Bool) (create : Payload → Except String AirRecord)
    (genSid topic userId now : String) (cache : Cache) (e : String)
    (hllm : (generateContentWithRetry client (startPrompt topic) 1 10000).result = .error e)
    (hq : isQuotaError e = true) :
    ((startResearch true true client parseOutline tableConfigured create
        genSid topic userId now cache).1 =
      .ok (startStoreStep tableConfigured create genSid userId topic
            (fallbackOutline topic)
            { outline := fallbackOutline topic, refinements := [], summary := "", tags := [] }).1
        (fallbackOutline topic) [] 50) ∧
    (fallbackOutline topic).title ≠ "" ∧
    (fallbackOutline topic).description ≠ "" ∧
    (fallbackOutline topic).subTopics.length = 5 ∧
    ((startResearch true false client parseOutline tableConfigured create
        genSid topic userId now cache).1 =
      .httpError 429 "LLM API quota exhausted. Add billing/key or use fallback mode.") := by
  refine ⟨?_, fallbackOutline_title_ne_empty topic, ?_, ?_, ?_⟩
  · simp [startResearch, hllm, hq]
  · simp [fallbackOutline]
  · simp [fallbackOutline]
  · simp [startResearch, hllm, hq]

/-- C6 (witness): a concrete 429 error on the start topic `graph databases`
yields the fallback outline (5 subtopics, titled `Graph Databases`) when
fallback is enabled, and a 429 failure when it is disabled. -/
theorem claim_C6_witness :
    (startResearch true true clientQuota parseNever false createNever
        "SESS-1" "graph databases" "u" "t0" []).1 =
      .ok "SESS-1" (fallbackOutline "graph databases") [] 50 ∧
    (fallbackOutline "graph databases").subTopics.length = 5 ∧
    (fallbackOutline "graph databases").title = "Graph Databases" ∧
    (startResearch true false clientQuota parseNever false createNever
        "SESS-1" "graph databases" "u" "t0" []).1 =
      .httpError 429 "LLM API quota exhausted. Add billing/key or use fallback mode." := by
  have h := claim_C6 clientQuota parseNever false createNever
    "SESS-1" "graph databases" "u" "t0" [] "429 Too Many Requests" rfl (by decide)
  refine ⟨?_, h.2.2.2.1, by decide, h.2.2.2.2⟩
  rw [h.1]
  rfl

theorem cacheGet_eq_none (cache : Cache) (sid uid : String)
    (h : ∀ item, cacheLookup cache sid = some item → item.user_id ≠ uid) :
    cacheGet cache sid uid = none := by
  unfold cacheGet
  cases hl : cacheLookup cache sid with
  | none => rfl
  | some item => simp [h item hl]

theorem findSessionRecord_eq_none (tc : Bool) (store : List AirRecord) (sid uid : String)
    (h1 : ∀ r ∈ store, ¬(r.fields.sessionId.getD "" = sid ∧ r.fields.userId.getD "" = uid))
    (h2 : ∀ r ∈ store, r.id = sid → r.fields.userId.getD "" ≠ uid) :
    findSessionRecord tc store sid uid = none := by
  unfold findSessionRecord
  cases tc with
  | false => rfl
  | true =>
    simp only [Bool.not_true, if_false, Bool.false_eq_true]
    have hf1 : store.find? (fun r =>
        r.fields.sessionId.getD "" = sid && r.fields.userId.getD "" = uid) = none := by
      rw [List.find?_eq_none]
      intro r hr
      simp only [Bool.and_eq_true, decide_eq_true_eq]
      exact fun hc => h1 r hr ⟨hc.1, hc.2⟩
    rw [hf1]
    cases hf2 : store.find? (fun r => r.id = sid) with
    | none => rfl
    | some r =>
      have hmem := List.mem_of_find?_eq_some hf2
      have hid : r.id = sid := by
        have := List.find?_some hf2
        simpa using this
      simp [h2 r hmem hid]

/-- C8: refine on a session identifier that resolves through none of the
three steps — no cache entry whose owner matches, no store record matching
the session-id/user-id formula, and no store record whose native id is the
identifier and whose owner matches — yields the not-found (404) outcome. -/
theorem claim_C8 (fallbackEnabled : Bool) (client : LLMClient)
    (parseInsight : String → Except String String)
    (tableConfigured : Bool) (store : List AirRecord)
    (update : String → Payload → Except String Unit)
    (cache : Cache) (sessionId userId subtopic now : String)
    (hcache : ∀ item, cacheLookup cache sessionId = some item → item.user_id ≠ userId)
    (hformula : ∀ r ∈ store,
      ¬(r.fields.sessionId.getD "" = sessionId ∧ r.fields.userId.getD "" = userId))
    (hrecid : ∀ r ∈ store, r.id = sessionId → r.fields.userId.getD "" ≠ userId) :
    (refineResearch true fallbackEnabled client parseInsight tableConfigured store
        update cache sessionId userId subtopic now).1 =
      .httpError 404 "Session not found." := by
  have hc := cacheGet_eq_none cache sessionId userId hcache
  have hf := findSessionRecord_eq_none tableConfigured store sessionId userId hformula hrecid
  simp [refineResearch, hc, hf]

/-- C8 (witness): refining session id `S1` as user `u` when the cache entry
for `S1` belongs to another user, and the store's only record has session id
`S2` and native id `recX`, returns 404. -/
theorem claim_C8_witness :
    (refineResearch true true clientQuota parseInsightNever true storeW
        updateOk [("S1", ⟨"otherUser", "t0", dataW⟩)] "S1" "u" "sub" "t1").1 =
      .httpError 404 "Session not found." := by
  apply claim_C8
  · intro item h
    have : item = ⟨"otherUser", "t0", dataW⟩ := by
      simpa [cacheLookup] using h.symm
    subst this
    decide
  · intro r hr
    simp only [storeW, List.mem_singleton] at hr
    subst hr
    decide
  · intro r hr
    simp only [storeW, List.mem_singleton] at hr
    subst hr
    intro h
    exact absurd h (by decide)

/-- C10: a session-detail request served from the cache — an entry for the
requested id whose owner matches — returns the cached outline, refinements,
summary and tags with no store access, for any store and even with the store
unconfigured; a cache entry with a different owner is a miss and the handler
falls through to the store path. -/
theorem claim_C10 (tableConfigured : Bool) (store : List AirRecord) (cache : Cache)
    (sessionId userId : String) :
    (∀ item, cacheGet cache sessionId userId = some item →
      getSession tableConfigured store cache sessionId userId =
        (.ok { sessionId := sessionId
               outline := item.data.outline
               createdAt := some item.created_at
               refinements := item.data.refinements
               summary := if item.data.summary = "" then none else some item.data.summary
               tags := item.data.tags }, false)) ∧
    (∀ item, cacheLookup cache sessionId = some item → item.user_id ≠ userId →
      getSession tableConfigured store cache sessionId userId =
        (getSessionStorePath tableConfigured store sessionId userId, true)) := by
  constructor
  · intro item h
    simp [getSession, h]
  · intro item h hne
    have hc : cacheGet cache sessionId userId = none := by
      unfold cacheGet
      simp [h, hne]
    simp [getSession, hc]

/-- C10 (witness): with the store unconfigured and empty, a cache hit for
session `S1` of user `u` returns the cached detail without store access,
while user `v` (owner mismatch) falls through to the store path. -/
theorem claim_C10_witness :
    getSession false [] cacheW "S1" "u" =
      (.ok { sessionId := "S1", outline := outlineW,
             createdAt := some "2024-01-01T00:00:00Z",
             refinements := [⟨"s", "i", "t1"⟩], summary := none, tags := ["A"] }, false) ∧
    getSession false [] cacheW "S1" "v" =
      (getSessionStorePath false [] "S1" "v", true) := by
  constructor
  · have h := (claim_C10 false [] cacheW "S1" "u").1 itemW rfl
    rw [h]
    rfl
  · exact (claim_C10 false [] cacheW "S1" "v").2 itemW rfl (by decide)

/-- C1 (counterexample): paging with limit 2 over 5 matching sessions, page 1
returns exactly 2 items but reports `totalPages = 2`, not `totalPages ≥ 3` as
claimed — the wrapper only probes one page beyond the window, so it can never
report more than `page + 1` pages. -/
theorem claim_C1_counterexample :
    (getHistoryPaged store5 false "u" "All" "" 1 2).items.length = 2 ∧
    (getHistoryPaged store5 false "u" "All" "" 1 2).totalPages = 2 ∧
    ¬(3 ≤ (getHistoryPaged store5 false "u" "All" "" 1 2).totalPages) := by
  decide

/-- C1 (amended): the paged handler fetches at most `page*limit + 1` records
and its reported `totalPages` never exceeds the requested page plus one; in
the concrete limit-2-over-5-sessions scenario, page 1 returns exactly 2 items
with `totalPages = 2` (one more page signalled), and the last page (3)
returns the remaining 1 item with `totalPages = 3 = page` (no further pages)
and `total = 5`. -/
theorem claim_C1 :
    (∀ (store : List AirRecord) (fails : Bool) (userId : String)
        (cats : List String) (search : String) (n : Nat),
      (historyFetchRecords store fails userId cats search (some n)).length ≤ n) ∧
    (∀ (store : List AirRecord) (fails : Bool) (userId category search : String)
        (page limit : Int),
      (getHistoryPaged store fails userId category search page limit).totalPages ≤
        (max 1 page).toNat + 1) ∧
    (getHistoryPaged store5 false "u" "All" "" 1 2).items.length = 2 ∧
    (getHistoryPaged store5 false "u" "All" "" 1 2).totalPages = 2 ∧
    (getHistoryPaged store5 false "u" "All" "" 3 2).items.length = 1 ∧
    (getHistoryPaged store5 false "u" "All" "" 3 2).totalPages = 3 ∧
    (getHistoryPaged store5 false "u" "All" "" 3 2).total = 5 := by
  refine ⟨?_, ?_, by decide, by decide, by decide, by decide, by decide⟩
  · intro store fails userId cats search n
    unfold historyFetchRecords takeOpt
    cases fails <;> simp [List.length_take]
  · intro store fails userId category search page limit
    unfold getHistoryPaged
    simp only
    split <;> omega

theorem pyLower_ne_empty (s : String) (h : s ≠ "") : pyLower s ≠ "" := by
  intro hc
  apply h
  have hdata : lowerL s.data = [] := by
    have := congrArg String.data hc
    simpa [pyLower] using this
  have : s.data = [] := by
    have hlen := congrArg List.length hdata
    simp [lowerL] at hlen
    exact List.length_eq_zero.mp hlen
  cases s
  simp_all

/-- C9 (counterexample): with the search string `"x "` (trailing blank), the
history for a session titled `x` still includes that session although none
of its fields case-insensitively contains `"x "` — the code matches against
the trimmed, lowercased query, not the search string as given. -/
theorem claim_C9_counterexample :
    buildHistoryItems storeX false "u" "All" "x " none = [itemX] ∧
    claimC9Matches "x " itemX = false := by
  decide

/-- C9 (amended): every session included in a history query's result whose
search string is non-blank after trimming has a title, description, subtopic
title, or tag that case-insensitively contains the trimmed search string
(equivalently, sessions containing the trimmed string in none of those
fields are excluded). -/
theorem claim_C9 (store : List AirRecord) (fails : Bool)
    (userId category search : String) (limit : Option Nat) :
    ∀ item ∈ buildHistoryItems store fails userId category search limit,
      pyStrip search ≠ "" → claimC9Matches (pyStrip search) item = true := by
  intro item hmem hne
  unfold buildHistoryItems at hmem
  rw [List.mem_filterMap] at hmem
  obtain ⟨r, _, hit⟩ := hmem
  unfold historyItemOf at hit
  simp only [] at hit
  split at hit
  case isFalse => exact absurd hit (by simp)
  case isTrue hm =>
    cases hit
    have hq : pyLower (pyStrip search) ≠ "" := pyLower_ne_empty _ hne
    simp only [matchesFilters, Bool.and_eq_true] at hm
    have hsearch := hm.2
    rw [if_pos hq] at hsearch
    simp only [claimC9Matches, Bool.or_eq_true, List.any_eq_true, List.mem_map,
      List.mem_filter, decide_eq_true_eq, pyLower] at hsearch ⊢
    rcases hsearch with ((h1 | h2) | h3) | h4
    · exact Or.inl (Or.inl (Or.inl h1))
    · exact Or.inl (Or.inl (Or.inr h2))
    · obtain ⟨a, ⟨x, hx, rfl⟩, hc⟩ := h3
      exact Or.inl (Or.inr ⟨x, hx, hc⟩)
    · obtain ⟨a, ⟨x, hx, hxa⟩, hc⟩ := h4
      subst hxa
      exact Or.inr ⟨x, hx, hc⟩

/-- C9 (witness): searching for `X` (uppercase) returns the session titled
`x`, and that session satisfies the claimed matching predicate for the
trimmed query. -/
theorem claim_C9_witness :
    claimC9Matches (pyStrip "X") itemX = true := by
  apply claim_C9 storeX false "u" "All" "X" none itemX
  · decide
  · decide

theorem startsL_append (n rest : List Char) : startsL n (n ++ rest) = true :=
  (startsL_iff n (n ++ rest)).mpr ⟨rest, rfl⟩

theorem afterFirst_of_startsL (pat l : List Char) (h : startsL pat l = true) :
    afterFirst pat l = l.drop pat.length := by
  cases l with
  | nil =>
    cases pat with
    | nil => rfl
    | cons a as => simp [startsL] at h
  | cons c cs =>
    unfold afterFirst
    rw [if_pos h]

theorem takeWhile_quote (f rest : List Char) (hq : ∀ c ∈ f, ¬(c = '"')) :
    (f ++ '"' :: rest).takeWhile (· ≠ '"') = f := by
  induction f with
  | nil => simp
  | cons c cs ih =>
    have hc : ¬(c = '"') := hq c (by simp)
    have ih' := ih (fun x hx => hq x (by simp [hx]))
    rw [List.cons_append, List.takeWhile_cons_of_pos (by simp [hc]), ih']

theorem strip_unknown_field (f tail : String) (payload : Payload)
    (hq : ∀ c ∈ f.data, ¬(c = '"')) (hk : hasKey payload f = true) :
    stripInvalidAirtableField (markerUnknown ++ f ++ "\"" ++ tail) payload =
      some (eraseKey payload f) := by
  have hdata : (markerUnknown ++ f ++ "\"" ++ tail).data =
      markerUnknown.data ++ (f.data ++ '"' :: tail.data) := by
    simp [String.data_append]
  have h3 : containsL markerUnknown.data (markerUnknown ++ f ++ "\"" ++ tail).data = true :=
    (containsL_iff _ _).mpr ⟨[], f.data ++ '"' :: tail.data, by simp [hdata]⟩
  have h1 : afterFirst markerUnknown.data (markerUnknown ++ f ++ "\"" ++ tail).data =
      f.data ++ '"' :: tail.data := by
    rw [hdata, afterFirst_of_startsL _ _ (startsL_append _ _), List.drop_left]
  have h2 : (afterFirst markerUnknown.data
      (markerUnknown ++ f ++ "\"" ++ tail).data).takeWhile (· ≠ '"') = f.data := by
    rw [h1]
    exact takeWhile_quote f.data tail.data hq
  unfold stripInvalidAirtableField
  simp only [h3, if_true, h2]
  have : (⟨f.data⟩ : String) = f := rfl
  rw [this, hk]
  rfl

theorem strip_computed_field (f : String) (payload : Payload)
    (hq : ∀ c ∈ f.data, ¬(c = '"'))
    (hnu : containsL markerUnknown.data (markerComputed ++ f ++ markerComputedSuffix).data = false)
    (hk : hasKey payload f = true) :
    stripInvalidAirtableField (markerComputed ++ f ++ markerComputedSuffix) payload =
      some (eraseKey payload f) := by
  have hdata : (markerComputed ++ f ++ markerComputedSuffix).data =
      markerComputed.data ++ (f.data ++ '"' ::
        " cannot accept a value because the field is computed".data) := by
    simp [String.data_append, markerComputedSuffix]
  have hpre : containsL markerComputed.data (markerComputed ++ f ++ markerComputedSuffix).data = true :=
    (containsL_iff _ _).mpr ⟨[],
      f.data ++ '"' :: " cannot accept a value because the field is computed".data,
      by simp [hdata]⟩
  have hsuf : containsL markerComputedSuffix.data (markerComputed ++ f ++ markerComputedSuffix).data = true :=
    (containsL_iff _ _).mpr ⟨(markerComputed ++ f).data, [], by simp [String.data_append]⟩
  have h1 : afterFirst markerComputed.data (markerComputed ++ f ++ markerComputedSuffix).data =
      f.data ++ '"' :: " cannot accept a value because the field is computed".data := by
    rw [hdata, afterFirst_of_startsL _ _ (startsL_append _ _), List.drop_left]
  have h2 : (afterFirst markerComputed.data
      (markerComputed ++ f ++ markerComputedSuffix).data).takeWhile (· ≠ '"') = f.data := by
    rw [h1]
    exact takeWhile_quote f.data _ hq
  unfold stripInvalidAirtableField
  simp only [hnu, hpre, hsuf, Bool.false_eq_true, if_false, Bool.and_self, if_true, h2]
  have : (⟨f.data⟩ : String) = f := rfl
  rw [this, hk]
  rfl

theorem strip_choice_field (err : String) (payload : Payload)
    (hc : containsL "INVALID_MULTIPLE_CHOICE_OPTIONS".data err.data = true)
    (hnu : containsL markerUnknown.data err.data = false)
    (hnc : containsL markerComputed.data err.data = false)
    (hk : hasKey payload "Status" = true) :
    stripInvalidAirtableField err payload = some (eraseKey payload "Status") := by
  unfold stripInvalidAirtableField
  simp [hc, hnu, hnc, hk]

theorem createGo_calls_le (create : Payload → Except String AirRecord) :
    ∀ n p, (createGo create n p).calls ≤ n := by
  intro n
  induction n with
  | zero => intro p; simp [createGo]
  | succ n ih =>
    intro p
    unfold createGo
    cases hcp : create p with
    | ok r => simp
    | error e =>
      cases hs : stripInvalidAirtableField e p with
      | some p' =>
        simp only [hs]
        exact Nat.succ_le_succ (ih p')
      | none =>
        simp only [hs]
        omega

theorem updateGo_calls_le (update : Payload → Except String Unit) (fields : Payload) :
    ∀ n p, (updateGo update fields n p).calls ≤ n + 1 := by
  intro n
  induction n with
  | zero =>
    intro p
    unfold updateGo
    cases update (minimalUpdatePayload fields) <;> simp
  | succ n ih =>
    intro p
    unfold updateGo
    cases hcp : update p with
    | ok r => simp
    | error e =>
      cases hs : stripInvalidAirtableField e p with
      | some p' =>
        simp only [hs]
        exact Nat.succ_le_succ (ih p')
      | none =>
        simp only [hs]
        omega

theorem createResilient_error_of (create : Payload → Except String AirRecord)
    (fields : Payload) (e : String) (he : create fields = .error e)
    (hs : stripInvalidAirtableField e fields = none) :
    (createRecordResilient create fields).result = .error e := by
  unfold createRecordResilient createGo
  rw [he]
  simp [hs]

theorem updateResilient_error_of (update : Payload → Except String Unit)
    (fields : Payload) (e : String) (he : update fields = .error e)
    (hs : stripInvalidAirtableField e fields = none) :
    (updateRecordResilient update fields).result = .error e := by
  unfold updateRecordResilient updateGo
  rw [he]
  simp [hs]

theorem dedupFirstAux_mem (l : List String) :
    ∀ (seen : List String) (x : String),
      x ∈ dedupFirstAux seen l ↔ x ∈ l ∧ x ∉ seen := by
  induction l with
  | nil => intro seen x; simp [dedupFirstAux]
  | cons a as ih =>
    intro seen x
    by_cases ha : a ∈ seen
    · simp only [dedupFirstAux, ha, if_true, ih seen x, List.mem_cons]
      constructor
      · rintro ⟨hx, hns⟩
        exact ⟨Or.inr hx, hns⟩
      · rintro ⟨hor, hns⟩
        rcases hor with rfl | hx
        · exact absurd ha hns
        · exact ⟨hx, hns⟩
    · simp only [dedupFirstAux, ha, if_false, List.mem_cons, ih (a :: seen) x]
      constructor
      · rintro (rfl | ⟨hx, hns⟩)
        · exact ⟨Or.inl rfl, ha⟩
        · exact ⟨Or.inr hx, fun hc => hns (Or.inr hc)⟩
      · rintro ⟨hor, hns⟩
        rcases hor with rfl | hx
        · exact Or.inl rfl
        · by_cases hxa : x = a
          · exact Or.inl hxa
          · exact Or.inr ⟨hx, by simp [hxa, hns]⟩

theorem dedupFirstAux_nodup (l : List String) :
    ∀ seen : List String, (dedupFirstAux seen l).Nodup := by
  induction l with
  | nil => intro seen; simp [dedupFirstAux]
  | cons a as ih =>
    intro seen
    by_cases ha : a ∈ seen
    · simpa [dedupFirstAux, ha] using ih seen
    · simp only [dedupFirstAux, ha, if_false, List.nodup_cons]
      refine ⟨fun hc => ?_, ih (a :: seen)⟩
      have := (dedupFirstAux_mem as (a :: seen) a).mp hc
      exact this.2 (List.mem_cons_self a seen)

theorem dedupFirstAux_sublist (l : List String) :
    ∀ seen : List String, List.Sublist (dedupFirstAux seen l) l := by
  induction l with
  | nil => intro seen; simp [dedupFirstAux]
  | cons a as ih =>
    intro seen
    by_cases ha : a ∈ seen
    · simpa [dedupFirstAux, ha] using (ih seen).cons a
    · simpa [dedupFirstAux, ha] using (ih (a :: seen)).cons₂ a

theorem dedupFirst_nodup (l : List String) : (dedupFirst l).Nodup :=
  dedupFirstAux_nodup l []

theorem dedupFirst_sublist (l : List String) : List.Sublist (dedupFirst l) l :=
  dedupFirstAux_sublist l []

theorem dedupFirst_mem (l : List String) (x : String) :
    x ∈ dedupFirst l ↔ x ∈ l := by
  simpa [dedupFirst] using dedupFirstAux_mem l [] x

/-- C2 (counterexample): with a store that always rejects the first payload
field as unknown and a nine-field payload, the create path exhausts its 8
attempts and raises the fixed "unable to create" error — not the last error
received from the store (which named field `F8`), contradicting the claim
that the create path propagates the last store error when the budget is
exhausted. -/
theorem claim_C2_counterexample :
    (createRecordResilient createC p9).result = .error createExhaustedMsg ∧
    (createRecordResilient createC p9).storeErrors.getLast? =
      some (markerUnknown ++ "F8" ++ "\"") ∧
    ((createRecordResilient createC p9).storeErrors.all
      (fun e => e ≠ createExhaustedMsg)) = true := by
  decide

/-- C2 (amended): the resilient write adapter removes exactly the field named
by an unknown-field or computed-field rejection (and the `Status` field for
an invalid-choice rejection) and retries, with at most 8 store calls for
create and 9 for update; when every attempt keeps failing with a strippable
rejection, the update path's final store call writes only the minimal
critical fields (`Data` and `Status`) while the create path raises a fixed
"unable to create" failure; a store error that does not identify a removable
field propagates unchanged. -/
theorem claim_C2 :
    (∀ (f tail : String) (payload : Payload),
      (∀ c ∈ f.data, ¬(c = '"')) → hasKey payload f = true →
      stripInvalidAirtableField (markerUnknown ++ f ++ "\"" ++ tail) payload =
        some (eraseKey payload f)) ∧
    (∀ (f : String) (payload : Payload),
      (∀ c ∈ f.data, ¬(c = '"')) →
      containsL markerUnknown.data (markerComputed ++ f ++ markerComputedSuffix).data = false →
      hasKey payload f = true →
      stripInvalidAirtableField (markerComputed ++ f ++ markerComputedSuffix) payload =
        some (eraseKey payload f)) ∧
    (∀ (err : String) (payload : Payload),
      containsL "INVALID_MULTIPLE_CHOICE_OPTIONS".data err.data = true →
      containsL markerUnknown.data err.data = false →
      containsL markerComputed.data err.data = false →
      hasKey payload "Status" = true →
      stripInvalidAirtableField err payload = some (eraseKey payload "Status")) ∧
    (∀ (create : Payload → Except String AirRecord) (fields : Payload),
      (createRecordResilient create fields).calls ≤ 8) ∧
    (∀ (update : Payload → Except String Unit) (fields : Payload),
      (updateRecordResilient update fields).calls ≤ 9) ∧
    ((updateRecordResilient updateC p9).attempts.getLast? =
        some (minimalUpdatePayload p9) ∧
      (updateRecordResilient updateC p9).calls = 9) ∧
    (∀ (create : Payload → Except String AirRecord) (fields : Payload) (e : String),
      create fields = .error e → stripInvalidAirtableField e fields = none →
      (createRecordResilient create fields).result = .error e) ∧
    ((createRecordResilient createC p9).result = .error createExhaustedMsg ∧
      (createRecordResilient createC p9).calls = 8) := by
  refine ⟨strip_unknown_field, strip_computed_field, strip_choice_field, ?_, ?_, ?_, ?_, ?_⟩
  · intro create fields
    exact createGo_calls_le create 8 fields
  · intro update fields
    exact updateGo_calls_le update fields 8 fields
  · exact ⟨by decide, by decide⟩
  · exact createResilient_error_of
  · exact ⟨by decide, by decide⟩

/-- C2 (witness): concrete instances — stripping an unknown `Tags` field and
a computed `Session ID` field removes exactly that field, an invalid-choice
rejection removes `Status`, the always-rejecting create store stays within
its call budget, and an error naming no field propagates unchanged. -/
theorem claim_C2_witness :
    stripInvalidAirtableField (markerUnknown ++ "Tags" ++ "\"" ++ " in table") p9T =
      some (eraseKey p9T "Tags") ∧
    stripInvalidAirtableField (markerComputed ++ "Session ID" ++ markerComputedSuffix) p9T =
      some (eraseKey p9T "Session ID") ∧
    stripInvalidAirtableField "422 INVALID_MULTIPLE_CHOICE_OPTIONS" p9T =
      some (eraseKey p9T "Status") ∧
    (createRecordResilient createC p9).calls ≤ 8 ∧
    (createRecordResilient createBoom p9T).result = .error "boom" := by
  refine ⟨?_, ?_, ?_, ?_, ?_⟩
  · exact claim_C2.1 "Tags" " in table" p9T (by decide) (by decide)
  · exact claim_C2.2.1 "Session ID" p9T (by decide) (by decide) (by decide)
  · exact claim_C2.2.2.1 "422 INVALID_MULTIPLE_CHOICE_OPTIONS" p9T (by decide) (by decide)
      (by decide) (by decide)
  · exact claim_C2.2.2.2.1 createC p9
  · exact claim_C2.2.2.2.2.2.2.1 createBoom p9T "boom" rfl (by decide)

/-- C3 (counterexample): a refine request that resolves its session from the
store and then hits a store-write failure (an update error naming no
strippable field) does NOT return the in-memory result: it aborts with a 500
server error, contradicting the claim that store-write failures never abort
start/refine/finalize. The failure is still recorded as a provider issue. -/
theorem claim_C3_counterexample :
    (refineResearch true true clientOK parseInsightOK true storeW updateBoom
        [] "S2" "u" "sub" "t1").1 =
      .httpError 500 "Failed to refine research: disk offline" ∧
    (refineResearch true true clientOK parseInsightOK true storeW updateBoom
        [] "S2" "u" "sub" "t1").2.2 =
      [.clearIssue "llm", .setIssue "airtable" "write_error"] := by
  decide

/-- C3 (amended): a store-write failure never aborts start — the outline is
still returned and the failure is recorded as a provider issue — but in
refine (and symmetrically finalize) a store-write failure that the resilient
update cannot strip always aborts the operation (the refinement is still
cached): when the error text carries neither `429` nor `ResourceExhausted`
it is recorded as an airtable provider issue and surfaced as a 500 server
failure, and when it does carry one of those markers the handler-wide text
check misattributes it as an LLM quota issue and surfaces a rate-limited 429
response. -/
theorem claim_C3 :
    (∀ (fb : Bool) (client : LLMClient)
        (parseOutline : String → Except String ResearchOutline)
        (create : Payload → Except String AirRecord)
        (genSid topic userId now : String) (cache : Cache)
        (txt : String) (outl : ResearchOutline) (e : String),
      (generateContentWithRetry client (startPrompt topic) 1 10000).result = .ok txt →
      parseOutline (if txt = "" then emptyJson else txt) = .ok outl →
      create (startCreateFields genSid userId topic outl
        { outline := outl, refinements := [], summary := "", tags := [] }) = .error e →
      stripInvalidAirtableField e (startCreateFields genSid userId topic outl
        { outline := outl, refinements := [], summary := "", tags := [] }) = none →
      (startResearch true fb client parseOutline true create genSid topic userId
          now cache).1 = .ok genSid outl [] 50 ∧
      (startResearch true fb client parseOutline true create genSid topic userId
          now cache).2.2 = [.clearIssue "llm", .setIssue "airtable" "write_error"]) ∧
    (∀ (fb : Bool) (client : LLMClient)
        (parseInsight : String → Except String String)
        (store : List AirRecord) (update : String → Payload → Except String Unit)
        (cache : Cache) (sid uid subtopic now : String) (rec : AirRecord)
        (txt ins0 e : String),
      cacheGet cache sid uid = none →
      findSessionRecord true store sid uid = some rec →
      (generateContentWithRetry client
        (refinePrompt (parseDataBlob rec.fields).outline subtopic) 1 10000).result = .ok txt →
      parseInsight (if txt = "" then emptyJson else txt) = .ok ins0 →
      pyStrip ins0 ≠ "" →
      update rec.id (refineUpdateFields
        (refineDataAfter (parseDataBlob rec.fields) subtopic (pyStrip ins0) now)
        (parseDataBlob rec.fields).outline subtopic (pyStrip ins0)) = .error e →
      stripInvalidAirtableField e (refineUpdateFields
        (refineDataAfter (parseDataBlob rec.fields) subtopic (pyStrip ins0) now)
        (parseDataBlob rec.fields).outline subtopic (pyStrip ins0)) = none →
      ((containsS "429" e = false → containsS "ResourceExhausted" e = false →
        (refineResearch true fb client parseInsight true store update cache sid uid
            subtopic now).1 = .httpError 500 ("Failed to refine research: " ++ e) ∧
        .setIssue "airtable" "write_error" ∈
          (refineResearch true fb client parseInsight true store update cache sid uid
            subtopic now).2.2) ∧
       (containsS "429" e = true ∨ containsS "ResourceExhausted" e = true →
        (refineResearch true fb client parseInsight true store update cache sid uid
            subtopic now).1 =
          .httpError 429 "LLM API quota exhausted. Please try again soon." ∧
        .setIssue "llm" "quota" ∈
          (refineResearch true fb client parseInsight true store update cache sid uid
            subtopic now).2.2))) ∧
    (∀ (fb : Bool) (client : LLMClient)
        (parseFinal : String → Except String (String × List String))
        (store : List AirRecord) (update : String → Payload → Except String Unit)
        (cache : Cache) (sid uid now : String) (payloadTags : Option (List String))
        (rec : AirRecord) (txt s0 : String) (t0 : List String) (e : String),
      cacheGet cache sid uid = none →
      findSessionRecord true store sid uid = some rec →
      (generateContentWithRetry client
        (finalizePrompt (parseDataBlob rec.fields).outline
          (parseDataBlob rec.fields).refinements) 1 10000).result = .ok txt →
      parseFinal (if txt = "" then emptyJson else txt) = .ok (s0, t0) →
      pyStrip s0 ≠ "" →
      update rec.id (finalizeUpdateFields
        (finalizeDataAfter (parseDataBlob rec.fields) (parseDataBlob rec.fields).outline
          payloadTags (pyStrip s0) ((t0.map pyStrip).filter (· ≠ "")))
        (parseDataBlob rec.fields).outline (pyStrip s0)) = .error e →
      stripInvalidAirtableField e (finalizeUpdateFields
        (finalizeDataAfter (parseDataBlob rec.fields) (parseDataBlob rec.fields).outline
          payloadTags (pyStrip s0) ((t0.map pyStrip).filter (· ≠ "")))
        (parseDataBlob rec.fields).outline (pyStrip s0)) = none →
      ((containsS "429" e = false → containsS "ResourceExhausted" e = false →
        (finalizeResearch true fb client parseFinal true store update cache sid uid
            payloadTags now).1 =
          .httpError 500 ("Failed to finalize research: " ++ e) ∧
        .setIssue "airtable" "write_error" ∈
          (finalizeResearch true fb client parseFinal true store update cache sid uid
            payloadTags now).2.2) ∧
       (containsS "429" e = true ∨ containsS "ResourceExhausted" e = true →
        (finalizeResearch true fb client parseFinal true store update cache sid uid
            payloadTags now).1 =
          .httpError 429 "LLM API quota exhausted. Please try again soon." ∧
        .setIssue "llm" "quota" ∈
          (finalizeResearch true fb client parseFinal true store update cache sid uid
            payloadTags now).2.2))) := by
  refine ⟨?_, ?_, ?_⟩
  · intro fb client parseOutline create genSid topic userId now cache txt outl e
      hllm hp hcreate hstrip
    have hres := createResilient_error_of create _ e hcreate hstrip
    have hstep : startStoreStep true create genSid userId topic outl
        { outline := outl, refinements := [], summary := "", tags := [] } =
        (genSid, [.setIssue "airtable" "write_error"]) := by
      unfold startStoreStep
      rw [if_pos rfl, hres]
    constructor <;> simp [startResearch, hllm, hp, hstep]
  · intro fb client parseInsight store update cache sid uid subtopic now rec
      txt ins0 e hcg hrec hllm hp hne hupd hstrip
    have hur := updateResilient_error_of (update rec.id) _ e hupd hstrip
    constructor
    · intro h429 hres
      constructor
      · simp [refineResearch, hcg, hrec, hllm, hp, hne, hur, h429, hres]
      · simp [refineResearch, hcg, hrec, hllm, hp, hne, hur, h429, hres]
    · intro hor
      constructor
      · simp [refineResearch, hcg, hrec, hllm, hp, hne, hur]
        rw [if_pos hor]
      · simp [refineResearch, hcg, hrec, hllm, hp, hne, hur]
        rw [if_pos hor]
        simp
  · intro fb client parseFinal store update cache sid uid now payloadTags rec
      txt s0 t0 e hcg hrec hllm hp hsum hupd hstrip
    have hur := updateResilient_error_of (update rec.id) _ e hupd hstrip
    simp only [ne_eq, decide_not] at hur
    constructor
    · intro h429 hres
      constructor
      · simp [finalizeResearch, hcg, hrec, hllm, hp, hsum, hur, h429, hres]
      · simp [finalizeResearch, hcg, hrec, hllm, hp, hsum, hur, h429, hres]
    · intro hor
      constructor
      · simp [finalizeResearch, hcg, hrec, hllm, hp, hsum, hur]
        rw [if_pos hor]
      · simp [finalizeResearch, hcg, hrec, hllm, hp, hsum, hur]
        rw [if_pos hor]
        simp

/-- C3 (witness): concrete runs — start returns its outline although the
create call failed with `boom`; refine and finalize abort with 500 when the
update call fails with `disk offline`, and with a rate-limited 429 response
when it fails with a store-side `429 Client Error`. -/
theorem claim_C3_witness :
    (startResearch true true clientOK parseStartOK true createBoom
        "SESS-1" "top" "u" "t0" []).1 = .ok "SESS-1" outlineW [] 50 ∧
    (refineResearch true true clientOK parseInsightOK true storeW updateBoom
        [] "S2" "u" "sub" "t1").1 =
      .httpError 500 "Failed to refine research: disk offline" ∧
    (refineResearch true true clientOK parseInsightOK true storeW updateBoom429
        [] "S2" "u" "sub" "t1").1 =
      .httpError 429 "LLM API quota exhausted. Please try again soon." ∧
    (finalizeResearch true true clientOK parseFinalOK true storeW updateBoom
        [] "S2" "u" none "t1").1 =
      .httpError 500 "Failed to finalize research: disk offline" ∧
    (finalizeResearch true true clientOK parseFinalOK true storeW updateBoom429
        [] "S2" "u" none "t1").1 =
      .httpError 429 "LLM API quota exhausted. Please try again soon." := by
  refine ⟨?_, ?_, ?_, ?_, ?_⟩
  · exact (claim_C3.1 true clientOK parseStartOK createBoom "SESS-1" "top" "u" "t0" []
      "resp" outlineW "boom" rfl rfl rfl (by decide)).1
  · exact ((claim_C3.2.1 true clientOK parseInsightOK storeW updateBoom [] "S2" "u"
      "sub" "t1" recW "resp" "An insight" "disk offline" rfl rfl rfl rfl (by decide)
      rfl (by decide)).1 (by decide) (by decide)).1
  · exact ((claim_C3.2.1 true clientOK parseInsightOK storeW updateBoom429 [] "S2" "u"
      "sub" "t1" recW "resp" "An insight" "429 Client Error: Too Many Requests"
      rfl rfl rfl rfl (by decide) rfl (by decide)).2 (Or.inl (by decide))).1
  · exact ((claim_C3.2.2 true clientOK parseFinalOK storeW updateBoom [] "S2" "u"
      "t1" none recW "resp" "Summary text" ["Alpha", "Beta", "Alpha"] "disk offline"
      rfl rfl rfl rfl (by decide) rfl (by decide)).1 (by decide) (by decide)).1
  · exact ((claim_C3.2.2 true clientOK parseFinalOK storeW updateBoom429 [] "S2" "u"
      "t1" none recW "resp" "Summary text" ["Alpha", "Beta", "Alpha"]
      "429 Client Error: Too Many Requests"
      rfl rfl rfl rfl (by decide) rfl (by decide)).2 (Or.inl (by decide))).1

theorem cacheGet_cachePut (cache : Cache) (sid uid : String) (d : SessionData)
    (ca now : String) :
    cacheGet (cachePut cache sid uid d (some ca) now) sid uid = some ⟨uid, ca, d⟩ := by
  unfold cachePut cacheGet cacheLookup
  simp

/-- A finalize call resolved from the cache with the store unconfigured:
full characterization of result, cache, and events. -/
theorem finalize_cache_ok (fb : Bool) (client : LLMClient)
    (parseFinal : String → Except String (String × List String))
    (store : List AirRecord) (update : String → Payload → Except String Unit)
    (cache : Cache) (sid uid now : String) (payloadTags : Option (List String))
    (item : CacheItem) (txt s0 : String) (t0 : List String)
    (hcg : cacheGet cache sid uid = some item)
    (hllm : (generateContentWithRetry client
        (finalizePrompt item.data.outline item.data.refinements) 1 10000).result = .ok txt)
    (hp : parseFinal (if txt = "" then emptyJson else txt) = .ok (s0, t0))
    (hsum : pyStrip s0 ≠ "") :
    finalizeResearch true fb client parseFinal false store update cache sid uid
        payloadTags now =
      (.ok sid (pyStrip s0)
        (finalizeSelectTags item.data.outline payloadTags
          ((t0.map pyStrip).filter (· ≠ ""))),
       cachePut cache sid uid
         (finalizeDataAfter item.data item.data.outline payloadTags (pyStrip s0)
           ((t0.map pyStrip).filter (· ≠ "")))
         (some item.created_at) now,
       [.clearIssue "llm"]) := by
  have hrec : findSessionRecord false store sid uid = none := rfl
  simp [finalizeResearch, hcg, hrec, hllm, hp, hsum, finalizeDataAfter]

/-- C7 (counterexample): the caller supplies the non-empty tags override
`[" "]`, yet the stored tags are the LLM-derived ones (`["Alpha", "Beta"]`)
— a blank-only override does not take precedence, refuting the claim as
stated for every non-empty supplied override. -/
theorem claim_C7_counterexample :
    (finalizeResearch true true clientOK parseFinalOK false [] updateOk cacheW
        "S1" "u" (some [" "]) "t2").1 =
      .ok "S1" "Summary text" ["Alpha", "Beta"] ∧
    ([" "] : List String) ≠ [] ∧
    ¬((" " : String) ∈ (["Alpha", "Beta"] : List String)) := by
  refine ⟨?_, by decide, by decide⟩
  decide

/-- C7 (amended): a successful finalize stores the de-duplicated
(first-occurrence order preserving) tag list; a caller-supplied override
containing at least one non-blank entry takes precedence (trimmed, blank
entries dropped) over derived tags; and finalizing again overwrites the
previous summary and tags — a second call from the post-finalize state
returns exactly the same summary and tags, not an accumulation. -/
theorem claim_C7 (fb : Bool) (client : LLMClient)
    (parseFinal : String → Except String (String × List String))
    (store : List AirRecord) (update : String → Payload → Except String Unit)
    (cache : Cache) (sid uid now : String) (payloadTags : Option (List String))
    (item : CacheItem) (txt s0 : String) (t0 : List String)
    (hcg : cacheGet cache sid uid = some item)
    (hllm : (generateContentWithRetry client
        (finalizePrompt item.data.outline item.data.refinements) 1 10000).result = .ok txt)
    (hp : parseFinal (if txt = "" then emptyJson else txt) = .ok (s0, t0))
    (hsum : pyStrip s0 ≠ "") :
    ((finalizeResearch true fb client parseFinal false store update cache sid uid
        payloadTags now).1 =
      .ok sid (pyStrip s0)
        (finalizeSelectTags item.data.outline payloadTags
          ((t0.map pyStrip).filter (· ≠ "")))) ∧
    (∀ l, (dedupFirst l).Nodup) ∧
    (∀ l, List.Sublist (dedupFirst l) l) ∧
    (∀ l x, x ∈ dedupFirst l ↔ x ∈ l) ∧
    (∀ (o : ResearchOutline) (pt : Option (List String)) (t : List String),
      ((pt.getD []).map pyStrip).filter (· ≠ "") ≠ [] →
      finalizeSelectTags o pt t =
        dedupFirst (((pt.getD []).map pyStrip).filter (· ≠ ""))) ∧
    ((finalizeResearch true fb client parseFinal false store update
        (finalizeResearch true fb client parseFinal false store update cache sid uid
          payloadTags now).2.1
        sid uid payloadTags now).1 =
      .ok sid (pyStrip s0)
        (finalizeSelectTags item.data.outline payloadTags
          ((t0.map pyStrip).filter (· ≠ "")))) := by
  have h1 := finalize_cache_ok fb client parseFinal store update cache sid uid now
    payloadTags item txt s0 t0 hcg hllm hp hsum
  refine ⟨by rw [h1], dedupFirst_nodup, dedupFirst_sublist, dedupFirst_mem, ?_, ?_⟩
  · intro o pt t hsel
    simp only [finalizeSelectTags]
    rw [if_pos hsel]
  · have hc' : (finalizeResearch true fb client parseFinal false store update cache
        sid uid payloadTags now).2.1 =
        cachePut cache sid uid
          (finalizeDataAfter item.data item.data.outline payloadTags (pyStrip s0)
            ((t0.map pyStrip).filter (· ≠ "")))
          (some item.created_at) now := by
      rw [h1]
    have h2 := finalize_cache_ok fb client parseFinal store update
      (cachePut cache sid uid
        (finalizeDataAfter item.data item.data.outline payloadTags (pyStrip s0)
          ((t0.map pyStrip).filter (· ≠ "")))
        (some item.created_at) now)
      sid uid now payloadTags
      ⟨uid, item.created_at,
        finalizeDataAfter item.data item.data.outline payloadTags (pyStrip s0)
          ((t0.map pyStrip).filter (· ≠ ""))⟩
      txt s0 t0 (cacheGet_cachePut cache sid uid _ item.created_at now) hllm hp hsum
    rw [hc', h2]
    rfl

/-- C7 (witness): a supplied override `["Keep", "Keep", "Tag"]` wins over the
derived tags and is stored de-duplicated in order as `["Keep", "Tag"]`; a
second finalize from the resulting state returns the same summary and tags. -/
theorem claim_C7_witness :
    (finalizeResearch true true clientOK parseFinalOK false [] updateOk cacheW
        "S1" "u" (some ["Keep", "Keep", "Tag"]) "t2").1 =
      .ok "S1" "Summary text" ["Keep", "Tag"] ∧
    (finalizeResearch true true clientOK parseFinalOK false [] updateOk
        (finalizeResearch true true clientOK parseFinalOK false [] updateOk cacheW
          "S1" "u" (some ["Keep", "Keep", "Tag"]) "t2").2.1
        "S1" "u" (some ["Keep", "Keep", "Tag"]) "t2").1 =
      .ok "S1" "Summary text" ["Keep", "Tag"] := by
  have h := claim_C7 true clientOK parseFinalOK [] updateOk cacheW "S1" "u" "t2"
    (some ["Keep", "Keep", "Tag"]) itemW "resp" "Summary text"
    ["Alpha", "Beta", "Alpha"] rfl rfl rfl (by decide)
  constructor
  · rw [h.1]
    decide
  · rw [h.2.2.2.2.2]
    decide

end Cerebro
